import Mathlib

/-!
Verification of the websocket-tunnel relay (kyujin-cho/websocket-tunnel).

Shallow embedding of the protocol engine:
* `src/utils.ts` — message helpers, `HostPortPair`, truthiness conventions;
* `src/commands/server.ts` — credential/ACL table, per-session connection
  registry, the CONNECT / START / TRAFFIC dispatch and the socket lifecycle
  callbacks;
* `src/commands/client.ts` — the tunnel session state, inbound message
  dispatch, local-listener attach/reject logic and the reconnect path.

JavaScript objects keyed by strings are embedded as association lists; the
JavaScript truthiness of the optional string fields (where `undefined` and
`""` are both falsy) is made explicit via `jsTruthyStr`.  Handlers are pure
functions from a state and a received message (plus the outcome of any I/O
the handler awaits, passed as an explicit argument) to a new state and the
observable effects: replies sent on the WebSocket, writes to sockets,
whether the WebSocket was closed, and whether the handler body threw.
-/

/-- JavaScript truthiness of an optional string field of a message body:
`undefined` and the empty string are falsy, every other string is truthy. -/
def jsTruthyStr : Option String → Bool
  | none => false
  | some s => !(s == "")

/-- Association-list embedding of a JavaScript object keyed by strings:
`jsGet o k` is `o[k]`, `none` standing for `undefined`. -/
def jsGet {α : Type} : List (String × α) → String → Option α
  | [], _ => none
  | (k, v) :: rest, key => if k = key then some v else jsGet rest key

/-- Embedding of the JavaScript assignment `o[k] = v` (replace the existing
entry for `k`, or append a fresh one). -/
def jsSet {α : Type} : List (String × α) → String → α → List (String × α)
  | [], key, v => [(key, v)]
  | (k, w) :: rest, key, v =>
    if k = key then (k, v) :: rest else (k, w) :: jsSet rest key v

/-- Embedding of the JavaScript statement `delete o[k]`. -/
def jsDelete {α : Type} : List (String × α) → String → List (String × α)
  | [], _ => []
  | (k, v) :: rest, key =>
    if k = key then jsDelete rest key else (k, v) :: jsDelete rest key

/-- Modelled from the spec: the base64 alphabet used for the wire encoding of
binary payload fields (the Node `Buffer` base64 codec itself is external to
the repository; §4.1 of the spec describes it as an exact round-trip
encoding, RFC 4648 with padding). -/
def b64Alphabet : List Char :=
  ['A', 'B', 'C', 'D', 'E', 'F', 'G', 'H', 'I', 'J', 'K', 'L', 'M',
   'N', 'O', 'P', 'Q', 'R', 'S', 'T', 'U', 'V', 'W', 'X', 'Y', 'Z',
   'a', 'b', 'c', 'd', 'e', 'f', 'g', 'h', 'i', 'j', 'k', 'l', 'm',
   'n', 'o', 'p', 'q', 'r', 's', 't', 'u', 'v', 'w', 'x', 'y', 'z',
   '0', '1', '2', '3', '4', '5', '6', '7', '8', '9', '+', '/']

/-- The base64 digit character for a 6-bit value. -/
def b64Char (n : Nat) : Char := b64Alphabet.getD n '='

/-- Scan for a character in the alphabet, returning its position (64 when
absent, which never arises on encoder output). -/
def b64IndexAux : List Char → Char → Nat → Nat
  | [], _, _ => 64
  | a :: as, c, i => if a = c then i else b64IndexAux as c (i + 1)

/-- The 6-bit value of a base64 digit character. -/
def b64Index (c : Char) : Nat := b64IndexAux b64Alphabet c 0

/-- Modelled from the spec: `data.toString('base64')` — encode a byte
sequence three bytes at a time into four base64 digits, padding the final
partial group with `=`. -/
def base64Encode : List Nat → List Char
  | [] => []
  | [a] => [b64Char (a / 4), b64Char (a % 4 * 16), '=', '=']
  | [a, b] =>
    [b64Char (a / 4), b64Char (a % 4 * 16 + b / 16), b64Char (b % 16 * 4), '=']
  | a :: b :: c :: rest =>
    (b64Char (a / 4)) :: (b64Char (a % 4 * 16 + b / 16)) ::
      (b64Char (b % 16 * 4 + c / 64)) :: (b64Char (c % 64)) :: base64Encode rest

/-- Modelled from the spec: `Buffer.from(s, 'base64')` — decode four base64
digits at a time back into bytes, honouring `=` padding. -/
def base64Decode : List Char → List Nat
  | c1 :: c2 :: c3 :: c4 :: rest =>
    if c3 = '=' then [b64Index c1 * 4 + b64Index c2 / 16]
    else if c4 = '=' then
      [b64Index c1 * 4 + b64Index c2 / 16,
       b64Index c2 % 16 * 16 + b64Index c3 / 4]
    else
      (b64Index c1 * 4 + b64Index c2 / 16) ::
        (b64Index c2 % 16 * 16 + b64Index c3 / 4) ::
        (b64Index c3 % 4 * 64 + b64Index c4) :: base64Decode rest
  | _ => []

/-- The wire message (`ControlMessage` of the spec): a JSON object whose
fields are all optional.  `id` is the field the TRAFFIC handler actually
reads (`body.id`), distinct from the `connection` field used in replies. -/
structure ControlMessage where
  type : Option String := none
  command : Option String := none
  passphrase : Option String := none
  host : Option String := none
  port : Option Nat := none
  connection : Option String := none
  id : Option String := none
  data : Option String := none
  status : Option String := none
  error : Option String := none
  hadError : Option Bool := none
deriving DecidableEq, Repr

/-- `HostPortPair` of `src/utils.ts`, as produced by the two-argument
constructor: when either field of the body is absent the constructor's type
guard fails and both fields stay `undefined`. -/
structure HostPortPair where
  host : Option String := none
  port : Option Nat := none
deriving DecidableEq, Repr

/-- `HostPortPair.fromBody` of `src/utils.ts`:
`new HostPortPair(body.host, body.port)`. -/
def HostPortPair.fromBody (body : ControlMessage) : HostPortPair :=
  match body.host, body.port with
  | some h, some p => { host := some h, port := some p }
  | _, _ => {}

/-- A credential's `allowed` table: host name to permitted-port list, port
`0` denoting the wildcard port and host key `"*"` the wildcard host. -/
abbrev AllowedMap := List (String × List Nat)

/-- `ICredential`: a passphrase with an optional `allowed` restriction. -/
structure Credential where
  passphrase : String
  allowed : Option AllowedMap := none
deriving DecidableEq, Repr

/-- The server's credential table, keyed by passphrase. -/
abbrev CredTable := List (String × Credential)

/-- `allowed[pair.host]` where `pair.host` may be `undefined`: JavaScript
coerces an `undefined` key to the string `"undefined"`. -/
def jsLookupHost (allowed : AllowedMap) (host : Option String) : Option (List Nat) :=
  jsGet allowed (host.getD "undefined")

/-- `allowedPorts.indexOf(pair.port) !== -1` where `pair.port` may be
`undefined`: a list of numbers never contains `undefined`. -/
def jsContainsPort (ports : List Nat) (port : Option Nat) : Bool :=
  match port with
  | some p => ports.contains p
  | none => false

/-- The inline ACL check of the START handler (`server.ts` lines 195‑215):
the first guard sends FORBIDDEN when `allowed[pair.host] || allowed['*']`
is falsy (`undefined`; note an empty array is truthy), otherwise
`allowedPorts` is that first-match set and the second guard sends FORBIDDEN
unless it contains the requested port or the wildcard port `0`.  `true`
means the request proceeds to the dial. -/
def authorize (allowed : AllowedMap) (host : Option String) (port : Option Nat) : Bool :=
  match jsLookupHost allowed host <|> jsGet allowed "*" with
  | none => false
  | some allowedPorts => jsContainsPort allowedPorts port || allowedPorts.contains 0

/-- The authorization predicate as §4.2 of the spec words it: the request is
granted when the exact-host entry permits the pair, OR when the wildcard
host entry permits it — both combinations checked independently.  Stated
for comparison with the implementation's `authorize`. -/
def authorizeSpecClaim (allowed : AllowedMap) (host : Option String) (port : Option Nat) : Bool :=
  (match jsLookupHost allowed host with
   | none => false
   | some ps => jsContainsPort ps port || ps.contains 0) ||
  (match jsGet allowed "*" with
   | none => false
   | some ps => jsContainsPort ps port || ps.contains 0)

/-- `isAuthenticated(body)` of the server: `true` when no credential table is
configured; otherwise the body's passphrase must be truthy and present in
the table. -/
def isAuthenticated (credentials : Option CredTable) (bodyPassphrase : Option String) : Bool :=
  match credentials with
  | none => true
  | some table =>
    if !(jsTruthyStr bodyPassphrase) then false
    else (jsGet table (bodyPassphrase.getD "")).isSome

/-- `SocketConnection` of `server.ts`: the target pair plus whether the
underlying TCP socket is currently present (`socket?`). -/
structure RemoteConn where
  target : HostPortPair := {}
  hasSocket : Bool := false
deriving DecidableEq, Repr

/-- One session's `sockets[conn.id]` object: logical connection id to its
`SocketConnection`. -/
abbrev ConnMap := List (String × RemoteConn)

/-- Per-WebSocket-connection server state: `sess = none` while
`sockets[conn.id]` is unset (no successful CONNECT yet), and the
`conn.passphrase` negotiated on CONNECT. -/
structure ServerState where
  sess : Option ConnMap := none
  passphrase : Option String := none
deriving DecidableEq, Repr

/-- Observable outcome of one server message-handler invocation: the new
per-connection state, the replies sent (in order), the bytes written to a
target socket (tagged with the logical connection id), whether the handler
called `conn.close()`, and whether the handler body threw. -/
structure ServerOutcome where
  st : ServerState
  replies : List ControlMessage := []
  write : Option (String × List Nat) := none
  wsClose : Bool := false
  threw : Bool := false
deriving DecidableEq, Repr

/-- The socket event that settles the fate of a dial started by
`SocketConnection.start`: `connect` on success, `timeout` (which a
`net.Socket` emits only after `socket.setTimeout()` has armed it — the code
never calls it, so this event cannot fire), or `error` carrying the code of
a real dial failure (ECONNREFUSED, ENOTFOUND, ...). -/
inductive DialEvent where
  | connect
  | timeout
  | error (code : String)
deriving DecidableEq, Repr

/-- What the dial's continuation observes once a `DialEvent` arrives: the
promise resolved (`.then` runs), the promise rejected (`.catch` runs, with
`e.reason`), or — for an `error` event, which `SocketConnection.start`
installs no listener for — an uncaught exception thrown out of the event
emitter: the promise never settles and neither callback runs. -/
inductive DialOutcome where
  | resolved
  | rejected (reason : String)
  | uncaught (code : String)
deriving DecidableEq, Repr

/-- `SocketConnection.start` (`server.ts` lines 32‑44): the handlers
registered on the fresh socket map `connect` to resolution and `timeout` to
rejection with `TunnelError('TIMEOUT')`; an `error` event has no listener,
so Node raises it as an uncaught exception (fatal to the process by
default) and the promise is left pending. -/
def socketStart : DialEvent → DialOutcome
  | DialEvent.connect => DialOutcome.resolved
  | DialEvent.timeout => DialOutcome.rejected "TIMEOUT"
  | DialEvent.error code => DialOutcome.uncaught code

/-- The CONNECT branch of the server dispatch (`server.ts` lines 164‑175):
reject with AUTHFAIL when `isAuthenticated` fails; otherwise record a truthy
passphrase on the connection, (re)initialize `sockets[conn.id]` to the empty
object and acknowledge. -/
def handleConnect (credentials : Option CredTable) (st : ServerState)
    (body : ControlMessage) : ServerOutcome :=
  if !(isAuthenticated credentials body.passphrase) then
    { st := st, replies := [{ command := some "CONNECT", error := some "AUTHFAIL" }] }
  else
    let st1 := if jsTruthyStr body.passphrase then
        { st with passphrase := body.passphrase } else st
    { st := { st1 with sess := some [] },
      replies := [{ command := some "CONNECT" }] }

/-- The tail of the START branch once every guard has passed: reply
CONNECTING immediately, then settle the dial — on resolution register the
`SocketConnection` under the fresh id and reply ESTABLISHED, on rejection
reply FAILED with the rejection reason and register nothing.  `dial` is the
settled promise outcome driving `.then`/`.catch`; per `socketStart` it only
materializes for a `connect` or `timeout` event — an `error` event settles
nothing and runs neither callback (see `startDialEvent`). -/
def startDial (st : ServerState) (m : ConnMap) (pair : HostPortPair)
    (newId : String) (dial : Except String Unit) : ServerOutcome :=
  let connecting : ControlMessage :=
    { command := some "START", status := some "CONNECTING", connection := some newId }
  match dial with
  | Except.ok _ =>
    { st := { st with sess := some (jsSet m newId { target := pair, hasSocket := true }) },
      replies := [connecting, { status := some "ESTABLISHED", connection := some newId }] }
  | Except.error e =>
    { st := st,
      replies := [connecting,
        { status := some "FAILED", error := some e, connection := some newId }] }

/-- What the full dial path of a START produces once the socket's settling
event arrives.  The CONNECTING reply has already been sent synchronously;
on `connect`/`timeout` the settled promise drives the `.then`/`.catch` of
`startDial`; on an `error` event neither callback runs — no further reply
is sent, the session mapping is untouched, and the unhandled event brings
the server process down (`processCrashed`). -/
structure StartDialResult where
  outcome : ServerOutcome
  processCrashed : Bool := false
deriving DecidableEq, Repr

/-- The dial continuation of the START handler wired to the actual socket
event, through `socketStart`. -/
def startDialEvent (st : ServerState) (m : ConnMap) (pair : HostPortPair)
    (newId : String) (ev : DialEvent) : StartDialResult :=
  match socketStart ev with
  | DialOutcome.resolved =>
    { outcome := startDial st m pair newId (Except.ok ()) }
  | DialOutcome.rejected e =>
    { outcome := startDial st m pair newId (Except.error e) }
  | DialOutcome.uncaught _ =>
    { outcome :=
        { st := st,
          replies := [{ command := some "START", status := some "CONNECTING",
                        connection := some newId }] },
      processCrashed := true }

/-- The START branch of the server dispatch (`server.ts` lines 176‑267):
AUTHFAIL when the session has no mapping yet (no successful CONNECT) or when
credentials are configured but no passphrase was negotiated; destructuring
`credentials[passphrase]` throws when the negotiated passphrase is not in
the table; FORBIDDEN when the credential restricts `allowed` and the ACL
check fails; otherwise proceed to the dial.  `newId` is the freshly drawn
UUID and `dial` the settled outcome of `socketConnection.start()`, when the
promise settles at all. -/
def handleStart (credentials : Option CredTable) (st : ServerState)
    (body : ControlMessage) (newId : String) (dial : Except String Unit) : ServerOutcome :=
  match st.sess with
  | none =>
    { st := st, replies := [{ command := body.type, error := some "AUTHFAIL" }] }
  | some m =>
    let pair := HostPortPair.fromBody body
    match credentials with
    | none => startDial st m pair newId dial
    | some table =>
      if !(jsTruthyStr st.passphrase) then
        { st := st, replies := [{ command := body.type, error := some "AUTHFAIL" }] }
      else
        match jsGet table (st.passphrase.getD "") with
        | none => { st := st, threw := true }
        | some cred =>
          match cred.allowed with
          | none => startDial st m pair newId dial
          | some allowed =>
            if authorize allowed pair.host pair.port then
              startDial st m pair newId dial
            else
              { st := st, replies := [{ command := body.type, error := some "FORBIDDEN" }] }

/-- The TRAFFIC branch of the server dispatch (`server.ts` lines 268‑308).
When the session has no mapping an AUTHFAIL reply is sent but — unlike every
other error path of the dispatch — the branch does not return; it then sends
NOID for a falsy `body.id`, and for a truthy one evaluates
`sockets[conn.id][body.id]` on `undefined`, which throws.  On an
authenticated session: INVALIDID for an unknown id, CLOSED for an entry
whose socket is gone, otherwise the base64-decoded `body.data` is written to
the target socket (`Buffer.from(undefined, 'base64')` throws when `data` is
absent) and the write is acknowledged, `writeErr` carrying the error the
write callback observed, if any. -/
def handleTraffic (st : ServerState) (body : ControlMessage)
    (writeErr : Option String) : ServerOutcome :=
  let pre : List ControlMessage :=
    if st.sess.isNone then [{ command := body.type, error := some "AUTHFAIL" }] else []
  if !(jsTruthyStr body.id) then
    { st := st,
      replies := pre ++
        [{ command := some "TRAFFIC", connection := body.id, error := some "NOID" }] }
  else
    match st.sess with
    | none => { st := st, replies := pre, threw := true }
    | some m =>
      match jsGet m (body.id.getD "") with
      | none =>
        { st := st,
          replies := pre ++
            [{ command := some "TRAFFIC", connection := body.id, error := some "INVALIDID" }] }
      | some rc =>
        if !rc.hasSocket then
          { st := st,
            replies := pre ++
              [{ command := some "TRAFFIC", connection := body.id, error := some "CLOSED" }] }
        else
          match body.data with
          | none => { st := st, replies := pre, threw := true }
          | some d =>
            match writeErr with
            | some e =>
              { st := st,
                replies := pre ++
                  [{ connection := body.id, command := some "TRAFFIC", error := some e }],
                write := some (body.id.getD "", base64Decode d.toList) }
            | none =>
              { st := st,
                replies := pre ++ [{ connection := body.id, command := some "TRAFFIC" }],
                write := some (body.id.getD "", base64Decode d.toList) }

/-- The server's message dispatch on a parsed body (`server.ts` lines
164‑314): CONNECT, START, TRAFFIC, and NOTIMPLEMENTED for anything else
(echoing `body.type || 'UNKNOWN'`). -/
def serverDispatch (credentials : Option CredTable) (st : ServerState)
    (body : ControlMessage) (newId : String) (dial : Except String Unit)
    (writeErr : Option String) : ServerOutcome :=
  if body.type = some "CONNECT" then handleConnect credentials st body
  else if body.type = some "START" then handleStart credentials st body newId dial
  else if body.type = some "TRAFFIC" then handleTraffic st body writeErr
  else
    { st := st,
      replies := [{ command := if jsTruthyStr body.type then body.type else some "UNKNOWN",
                    error := some "NOTIMPLEMENTED" }] }

/-- A received transport frame.  `JSON.parse` is external; a text frame
carries its parse outcome, `none` standing for content that is not valid
JSON (on which `JSON.parse` throws). -/
inductive Frame where
  | binary (data : List Nat)
  | text (parsed : Option ControlMessage)
deriving DecidableEq, Repr

/-- The server's `conn.on('message')` handler (`server.ts` lines 159‑316):
non-UTF8 frames fail the `isUTF8Message` guard and are skipped entirely; a
UTF-8 frame is passed to `JSON.parse`, which throws on invalid JSON before
any dispatch runs. -/
def serverOnMessage (credentials : Option CredTable) (st : ServerState)
    (frame : Frame) (newId : String) (dial : Except String Unit)
    (writeErr : Option String) : ServerOutcome :=
  match frame with
  | Frame.binary _ => { st := st }
  | Frame.text none => { st := st, threw := true }
  | Frame.text (some body) => serverDispatch credentials st body newId dial writeErr

/-- The target socket's `close` handler registered after a successful dial
(`server.ts` lines 248‑256): delete the session's entry for the logical
connection, send the CLOSED notification, then close the WebSocket
connection.  Returns the new mapping, the replies and whether
`conn.close()` was called. -/
def handleSocketClose (m : ConnMap) (id : String) (hadError : Bool) :
    ConnMap × List ControlMessage × Bool :=
  (jsDelete m id,
   [{ connection := some id, status := some "CLOSED", hadError := some hadError }],
   true)

/-- The loop of the WebSocket `close` handler (`server.ts` lines 318‑323):
close each owned `SocketConnection` in turn; `close()` throws
`TunnelError('NOCONNECTION')` on an entry without a socket, aborting the
loop.  Returns the ids actually closed and whether the loop threw. -/
def closeAllConns : ConnMap → List String × Bool
  | [] => ([], false)
  | (id, rc) :: rest =>
    if rc.hasSocket then
      let (ids, threw) := closeAllConns rest
      (id :: ids, threw)
    else ([], true)

/-- The WebSocket `close` handler: iterate over `sockets[conn.id] || {}`. -/
def wsOnClose (sess : Option ConnMap) : List String × Bool :=
  closeAllConns (sess.getD [])

/-- Client-side tunnel session state (`client.ts` lines 69‑76): the attached
local socket (`client`, embedded as an opaque socket number), the pending
buffer queue, the WebSocket connection, the connectivity flag, and the
logical connection id (initialised to `''`, later assigned `body.connection`
which may itself be `undefined`). -/
structure ClientState where
  client : Option Nat := none
  buffers : List (List Nat) := []
  wsConnection : Option Nat := none
  isConnected : Bool := false
  connectionId : Option String := some ""
deriving DecidableEq, Repr

/-- Observable effects of one client message-handler invocation: messages
sent to the relay, byte buffers written to the attached local socket,
whether the process was terminated (`panic`, carrying the error code it was
given, if any), whether the WebSocket or the local listener was closed, and
whether the handler body threw. -/
structure ClientEffects where
  sends : List ControlMessage := []
  writes : List (List Nat) := []
  fatalExit : Option (Option String) := none
  wsClose : Bool := false
  serverClose : Bool := false
  threw : Bool := false
deriving DecidableEq, Repr

/-- The START request the client sends after a successful CONNECT reply:
`{type:'START', host: target.split(':')[0], port: parseInt(target.split(':')[1])}`
(`parseInt` embedded as a decimal parse, `NaN` as `none`). -/
def startMsgFor (target : String) : ControlMessage :=
  { type := some "START",
    host := some ((target.splitOn ":").getD 0 ""),
    port := ((target.splitOn ":").getD 1 "").toNat? }

/-- The client's dispatch on a parsed message body (`client.ts` lines
96‑163).  First the `switch (body.command)`: an error on a CONNECT, START or
TRAFFIC reply closes the WebSocket and the local listener and terminates the
process; a clean CONNECT reply sends the START request; a clean START reply
records the allocated connection id.  Then, for a truthy `body.connection`:
a CLOSED or FAILED status closes the local listener and terminates; a truthy
`body.data` is base64-decoded and written to the attached local socket, or
appended to the pending buffer queue when none is attached. -/
def clientDispatch (target : String) (st : ClientState)
    (body : ControlMessage) : ClientState × ClientEffects :=
  if body.command = some "CONNECT" ∧ jsTruthyStr body.error = true then
    (st, { fatalExit := some body.error, wsClose := true, serverClose := true })
  else if body.command = some "START" ∧ jsTruthyStr body.error = true then
    (st, { fatalExit := some body.error, wsClose := true, serverClose := true })
  else if body.command = some "TRAFFIC" ∧ jsTruthyStr body.error = true then
    (st, { fatalExit := some body.error, wsClose := true, serverClose := true })
  else
    let st1 := if body.command = some "START" then
        { st with connectionId := body.connection } else st
    let sends := if body.command = some "CONNECT" then [startMsgFor target] else []
    if jsTruthyStr body.connection then
      if jsTruthyStr body.status then
        if body.status = some "CLOSED" then
          (st1, { sends := sends, serverClose := true, fatalExit := some none })
        else if body.status = some "FAILED" then
          (st1, { sends := sends, serverClose := true, fatalExit := some none })
        else (st1, { sends := sends })
      else if jsTruthyStr body.data then
        let buf := base64Decode (body.data.getD "").toList
        match st1.client with
        | some _ => (st1, { sends := sends, writes := [buf] })
        | none => ({ st1 with buffers := st1.buffers ++ [buf] }, { sends := sends })
      else (st1, { sends := sends })
    else (st1, { sends := sends })

/-- The client's `conn.on('message')` handler (`client.ts` lines 93‑165):
non-UTF8 frames fail the `isUTF8Message` guard and are skipped; the content
of a UTF-8 frame goes through `JSON.parse`, which throws on invalid JSON
before the dispatch runs. -/
def clientOnMessage (target : String) (st : ClientState) (frame : Frame) :
    ClientState × ClientEffects :=
  match frame with
  | Frame.binary _ => (st, {})
  | Frame.text none => (st, { threw := true })
  | Frame.text (some body) => clientDispatch target st body

/-- The flush loop of the local `connection` handler (`client.ts` lines
202‑206): `while (buffers.length > 0) { socket.write(buffers.shift()) }` —
returns the buffers written, in shift (front-first) order, and the queue
left behind. -/
def flushBuffers : List (List Nat) → List (List Nat) × List (List Nat)
  | [] => ([], [])
  | b :: rest =>
    let (writes, rem) := flushBuffers rest
    (b :: writes, rem)

/-- Outcome of the local listener's `connection` handler: the new client
state, the buffers written to the connecting socket, and whether the socket
was rejected with `socket.end()`. -/
structure AttachOutcome where
  st : ClientState
  writes : List (List Nat) := []
  ended : Bool := false
deriving DecidableEq, Repr

/-- The local listener's `connection` handler (`client.ts` lines 198‑210):
when no client is attached, attach this socket and flush the pending buffer
queue to it in order; otherwise reject the socket immediately. -/
def onLocalConnection (st : ClientState) (sock : Nat) : AttachOutcome :=
  match st.client with
  | none =>
    let (writes, rem) := flushBuffers st.buffers
    { st := { st with client := some sock, buffers := rem }, writes := writes }
  | some _ => { st := st, ended := true }

/-- The per-socket `close` handler that `net.createServer`'s callback
registers on every accepted local socket — including sockets later rejected
by the `connection` handler (`client.ts` lines 192‑195):
`wsConnection?.close(); client = undefined`.  Returns the new state and
whether `close()` was called on the WebSocket. -/
def onLocalSocketClose (st : ClientState) : ClientState × Bool :=
  ({ st with client := none }, st.wsConnection.isSome)

/-- Connectivity state of the client's reconnect path: the flag the data
handler tests, plus counters for the WebSocket connections opened and the
CONNECT/START handshakes initiated. -/
structure TunnelNetState where
  isConnected : Bool
  wsOpened : Nat
  handshakes : Nat
deriving DecidableEq, Repr

/-- The critical section of the local socket's `data` handler (`client.ts`
lines 177‑190), which runs under `lock.acquire()`: when disconnected, open
one WebSocket via `setupWsClient` and run `startConnection` — which sets
`isConnected = true` on the `connect` event and sends the CONNECT (and, on
its reply, the START) handshake — before the lock is released.  The mutex
serializes these sections, so N concurrent arrivals are embedded as N
sequential executions of this step. -/
def connectIfNeeded (st : TunnelNetState) : TunnelNetState :=
  if st.isConnected then st
  else { isConnected := true, wsOpened := st.wsOpened + 1, handshakes := st.handshakes + 1 }

/-- N local byte arrivals, each running the lock-guarded connect-if-needed
step in turn. -/
def processArrivals : Nat → TunnelNetState → TunnelNetState
  | 0, st => st
  | n + 1, st => processArrivals n (connectIfNeeded st)

theorem jsPortHit_iff (ps : List Nat) (port : Option Nat) :
    (jsContainsPort ps port || ps.contains 0) = true ↔
      (∃ p, port = some p ∧ p ∈ ps) ∨ 0 ∈ ps := by
  cases port with
  | none => simp [jsContainsPort, List.elem_iff]
  | some p => simp [jsContainsPort, List.elem_iff]

/-- Claim C1 (counterexample): with the table
`{"example.com": [80], "*": [443]}` the request `(example.com, 443)` is
granted by the spec's rule — the wildcard host entry permits port 443 — but
the implementation denies it: the exact `example.com` entry shadows the
wildcard entry, which is never consulted. -/
theorem authorize_wildcard_shadowed :
    authorizeSpecClaim [("example.com", [80]), ("*", [443])]
        (some "example.com") (some 443) = true ∧
      authorize [("example.com", [80]), ("*", [443])]
        (some "example.com") (some 443) = false := by
  decide

/-- Claim C1 (amended): `authorize` grants the pair iff the port set chosen
by first match — the exact-host entry when one is configured, otherwise the
wildcard `"*"` entry — contains the requested port or the wildcard port 0;
when an exact-host entry exists the wildcard entry is never consulted. -/
theorem authorize_first_match_iff (allowed : AllowedMap)
    (host : Option String) (port : Option Nat) :
    authorize allowed host port = true ↔
      (match jsLookupHost allowed host with
       | some ps => (∃ p, port = some p ∧ p ∈ ps) ∨ 0 ∈ ps
       | none =>
         match jsGet allowed "*" with
         | some ps => (∃ p, port = some p ∧ p ∈ ps) ∨ 0 ∈ ps
         | none => False) := by
  unfold authorize
  cases hx : jsLookupHost allowed host with
  | some ps =>
    simp only [Option.some_orElse]
    exact jsPortHit_iff ps port
  | none =>
    simp only [Option.none_orElse]
    cases hw : jsGet allowed "*" with
    | some ps => exact jsPortHit_iff ps port
    | none => simp

theorem b64_key : ∀ m : Fin 64, b64Index (b64Char m.val) = m.val ∧ b64Char m.val ≠ '=' := by
  decide

theorem b64Index_b64Char (n : Nat) (h : n < 64) : b64Index (b64Char n) = n :=
  (b64_key ⟨n, h⟩).1

theorem b64Char_ne_pad (n : Nat) (h : n < 64) : b64Char n ≠ '=' :=
  (b64_key ⟨n, h⟩).2

/-- Claim C4: for every byte sequence B, decoding the base64 wire encoding
of B reproduces exactly B, so payload bytes cross the tunnel unchanged. -/
theorem base64_round_trip (B : List Nat) (h : ∀ x ∈ B, x < 256) :
    base64Decode (base64Encode B) = B := by
  induction B using base64Encode.induct with
  | case1 => rfl
  | case2 a =>
    have ha : a < 256 := h a (by simp)
    have h1 : a / 4 < 64 := by omega
    have h2 : a % 4 * 16 < 64 := by omega
    simp only [base64Encode, base64Decode, if_true,
      b64Index_b64Char _ h1, b64Index_b64Char _ h2, List.cons.injEq, and_true]
    omega
  | case3 a b =>
    have ha : a < 256 := h a (by simp)
    have hb : b < 256 := h b (by simp)
    have h1 : a / 4 < 64 := by omega
    have h2 : a % 4 * 16 + b / 16 < 64 := by omega
    have h3 : b % 16 * 4 < 64 := by omega
    simp only [base64Encode, base64Decode, b64Char_ne_pad _ h3,
      b64Index_b64Char _ h1, b64Index_b64Char _ h2, b64Index_b64Char _ h3,
      if_false, ite_false, ite_true, if_true, List.cons.injEq, and_true]
    constructor <;> omega
  | case4 a b c rest ih =>
    have ha : a < 256 := h a (by simp)
    have hb : b < 256 := h b (by simp)
    have hc : c < 256 := h c (by simp)
    have h1 : a / 4 < 64 := by omega
    have h2 : a % 4 * 16 + b / 16 < 64 := by omega
    have h3 : b % 16 * 4 + c / 64 < 64 := by omega
    have h4 : c % 64 < 64 := by omega
    have hrest : ∀ x ∈ rest, x < 256 := fun x hx => h x (by simp [hx])
    simp only [base64Encode, base64Decode, b64Char_ne_pad _ h3, b64Char_ne_pad _ h4,
      b64Index_b64Char _ h1, b64Index_b64Char _ h2, b64Index_b64Char _ h3,
      b64Index_b64Char _ h4, if_false, ite_false, List.cons.injEq]
    exact ⟨by omega, by omega, by omega, ih hrest⟩

/-- Claim C4 witness: the round trip evaluated on a concrete byte sequence
covering all three padding shapes. -/
theorem base64_round_trip_witness :
    base64Decode (base64Encode [77, 97, 110, 0, 255]) = [77, 97, 110, 0, 255] ∧
      base64Decode (base64Encode [77]) = [77] ∧
      base64Decode (base64Encode [7, 200]) = [7, 200] := by
  refine ⟨?_, ?_, ?_⟩
  · exact base64_round_trip [77, 97, 110, 0, 255] (by decide)
  · exact base64_round_trip [77] (by decide)
  · exact base64_round_trip [7, 200] (by decide)

theorem jsGet_jsDelete_self {α : Type} (m : List (String × α)) (k : String) :
    jsGet (jsDelete m k) k = none := by
  induction m with
  | nil => rfl
  | cons hd tl ih =>
    obtain ⟨k1, v1⟩ := hd
    by_cases hk : k1 = k
    · simp [jsDelete, hk, ih]
    · simp [jsDelete, jsGet, hk, ih]

theorem jsGet_jsDelete_ne {α : Type} (m : List (String × α)) (k j : String)
    (h : j ≠ k) : jsGet (jsDelete m k) j = jsGet m j := by
  induction m with
  | nil => rfl
  | cons hd tl ih =>
    obtain ⟨k1, v1⟩ := hd
    by_cases hk : k1 = k
    · subst hk
      have : ¬ (k1 = j) := fun hj => h (hj ▸ rfl)
      simp [jsDelete, jsGet, this, ih]
    · by_cases hj : k1 = j <;> simp [jsDelete, jsGet, hk, hj, h, ih]

/-- Claim C2 (code evaluation at the failing input): on a session with no
successful CONNECT, a TRAFFIC message is answered with AUTHFAIL, but — the
branch lacking the `return` every other error path has — processing
continues: with a connection id present the handler then indexes
`sockets[conn.id]`, which is `undefined`, and throws; with no id it sends a
second, NOID, reply.  The START branch, whose guard does return, answers
with AUTHFAIL alone as the claim states. -/
theorem traffic_before_connect_eval :
    handleTraffic { sess := none } { type := some "TRAFFIC", id := some "x" } none
      = { st := { sess := none },
          replies := [{ command := some "TRAFFIC", error := some "AUTHFAIL" }],
          threw := true } ∧
    (handleTraffic { sess := none } { type := some "TRAFFIC" } none).replies
      = [{ command := some "TRAFFIC", error := some "AUTHFAIL" },
         { command := some "TRAFFIC", error := some "NOID" }] ∧
    handleStart none { sess := none }
        { type := some "START", host := some "example.com", port := some 80 }
        "n1" (Except.ok ())
      = { st := { sess := none },
          replies := [{ command := some "START", error := some "AUTHFAIL" }] } := by
  decide

/-- Claim C6: when an established target socket closes, the server deletes
that logical connection's entry from the session's mapping (leaving every
other entry in place), sends the CLOSED notification carrying `hadError`,
and closes the WebSocket connection. -/
theorem socket_close_cleanup (m : ConnMap) (id : String) (hadError : Bool) :
    jsGet (handleSocketClose m id hadError).1 id = none ∧
    (handleSocketClose m id hadError).2.1
      = [{ connection := some id, status := some "CLOSED", hadError := some hadError }] ∧
    (handleSocketClose m id hadError).2.2 = true ∧
    ∀ j, j ≠ id → jsGet (handleSocketClose m id hadError).1 j = jsGet m j := by
  refine ⟨jsGet_jsDelete_self m id, rfl, rfl, ?_⟩
  exact fun j hj => jsGet_jsDelete_ne m id j hj

/-- Claim C6 witness: the close handler evaluated on a two-entry mapping. -/
theorem socket_close_cleanup_witness :
    jsGet (handleSocketClose
        [("a", { hasSocket := true }), ("b", { hasSocket := true })] "a" true).1 "a" = none ∧
    jsGet (handleSocketClose
        [("a", { hasSocket := true }), ("b", { hasSocket := true })] "a" true).1 "b"
      = some { hasSocket := true } ∧
    (handleSocketClose
        [("a", { hasSocket := true }), ("b", { hasSocket := true })] "a" true).2.2 = true := by
  have h := socket_close_cleanup
    [("a", { hasSocket := true }), ("b", { hasSocket := true })] "a" true
  exact ⟨h.1, by rw [h.2.2.2 "b" (by decide)]; rfl, h.2.2.1⟩

/-- Claim C5 (code evaluation at the failing input): `SocketConnection.start`
listens only for `connect` and `timeout`.  A real dial failure arrives as an
`error` event — ECONNREFUSED here — with no listener: the promise never
settles, so after the CONNECTING reply no FAILED reply is ever sent (the
mapping stays untouched only by accident of the crash) and the unhandled
event brings the server process down.  The FAILED path the claim describes
exists solely for the `timeout` event, which never fires because the code
never arms `socket.setTimeout()`; even there, shown for contrast, the
mapping gains no entry. -/
theorem dial_error_event_no_failed_reply :
    startDialEvent { sess := some [] } [] { host := some "example.com", port := some 80 }
        "n1" (DialEvent.error "ECONNREFUSED")
      = { outcome :=
            { st := { sess := some [] },
              replies := [{ command := some "START", status := some "CONNECTING",
                            connection := some "n1" }] },
          processCrashed := true } ∧
    startDialEvent { sess := some [] } [] { host := some "example.com", port := some 80 }
        "n1" DialEvent.timeout
      = { outcome :=
            { st := { sess := some [] },
              replies := [{ command := some "START", status := some "CONNECTING",
                            connection := some "n1" },
                          { status := some "FAILED", error := some "TIMEOUT",
                            connection := some "n1" }] },
          processCrashed := false } := by
  decide

/-- Claim C10: a CONNECT accepted on a session that already holds a mapping
reinitializes `sockets[conn.id]` to the empty object; any logical connection
id allocated before then yields INVALIDID on TRAFFIC (with no socket write),
and its `SocketConnection` is no longer tracked, so the WebSocket-close
sweep of the session closes nothing. -/
theorem connect_resets_mapping (credentials : Option CredTable)
    (st : ServerState) (m : ConnMap) (body : ControlMessage) (id : String)
    (h1 : st.sess = some m)
    (h2 : isAuthenticated credentials body.passphrase = true)
    (h3 : id ≠ "") :
    (handleConnect credentials st body).st.sess = some [] ∧
    (handleConnect credentials st body).replies = [{ command := some "CONNECT" }] ∧
    (handleTraffic (handleConnect credentials st body).st
        { type := some "TRAFFIC", id := some id } none).replies
      = [{ command := some "TRAFFIC", connection := some id,
           error := some "INVALIDID" }] ∧
    (handleTraffic (handleConnect credentials st body).st
        { type := some "TRAFFIC", id := some id } none).write = none ∧
    wsOnClose st.sess = closeAllConns m ∧
    wsOnClose (handleConnect credentials st body).st.sess = ([], false) := by
  have hA : (handleConnect credentials st body).st.sess = some []
      ∧ (handleConnect credentials st body).replies
          = [{ command := some "CONNECT" }] := by
    unfold handleConnect
    rw [h2]
    by_cases hp : jsTruthyStr body.passphrase <;> simp [hp]
  have hid : jsTruthyStr (some id) = true := by
    simp [jsTruthyStr, h3]
  refine ⟨hA.1, hA.2, ?_, ?_, ?_, ?_⟩
  · simp [handleTraffic, hA.1, hid, jsGet]
  · simp [handleTraffic, hA.1, hid, jsGet]
  · rw [wsOnClose, h1]; rfl
  · simp [wsOnClose, hA.1, closeAllConns]

/-- Claim C10 witness: a second CONNECT on a session tracking the id
`"old"`, evaluated with no credential table. -/
theorem connect_resets_mapping_witness :
    (handleConnect none
        { sess := some [("old", { hasSocket := true })] }
        { type := some "CONNECT" }).st.sess = some [] ∧
    (handleConnect none
        { sess := some [("old", { hasSocket := true })] }
        { type := some "CONNECT" }).replies = [{ command := some "CONNECT" }] ∧
    (handleTraffic (handleConnect none
        { sess := some [("old", { hasSocket := true })] }
        { type := some "CONNECT" }).st
        { type := some "TRAFFIC", id := some "old" } none).replies
      = [{ command := some "TRAFFIC", connection := some "old",
           error := some "INVALIDID" }] ∧
    (handleTraffic (handleConnect none
        { sess := some [("old", { hasSocket := true })] }
        { type := some "CONNECT" }).st
        { type := some "TRAFFIC", id := some "old" } none).write = none ∧
    wsOnClose (some [("old", { hasSocket := true })])
      = closeAllConns [("old", { hasSocket := true })] ∧
    wsOnClose (handleConnect none
        { sess := some [("old", { hasSocket := true })] }
        { type := some "CONNECT" }).st.sess = ([], false) :=
  connect_resets_mapping none
    { sess := some [("old", { hasSocket := true })] }
    [("old", { hasSocket := true })]
    { type := some "CONNECT" } "old" rfl rfl (by decide)

/-- Claim C3: with the reconnect path serialized by the mutex, any positive
number of local byte arrivals that begin from the disconnected state opens
exactly one WebSocket connection and initiates exactly one CONNECT/START
handshake: the first arrival connects and flips `isConnected`, every later
arrival sees the flag and opens nothing. -/
theorem reconnect_opens_one (n : Nat) (h : 0 < n) :
    processArrivals n { isConnected := false, wsOpened := 0, handshakes := 0 }
      = { isConnected := true, wsOpened := 1, handshakes := 1 } := by
  have stable : ∀ (k : Nat) (st : TunnelNetState), st.isConnected = true →
      processArrivals k st = st := by
    intro k
    induction k with
    | zero => intro st _; rfl
    | succ k ih =>
      intro st hst
      have hstep : connectIfNeeded st = st := by
        simp [connectIfNeeded, hst]
      simp [processArrivals, hstep, ih st hst]
  obtain ⟨m, rfl⟩ : ∃ m, n = m + 1 := ⟨n - 1, by omega⟩
  exact stable m { isConnected := true, wsOpened := 1, handshakes := 1 } rfl

/-- Claim C3 witness: three concurrent arrivals from the disconnected state
open one connection and one handshake. -/
theorem reconnect_opens_one_witness :
    processArrivals 3 { isConnected := false, wsOpened := 0, handshakes := 0 }
      = { isConnected := true, wsOpened := 1, handshakes := 1 } :=
  reconnect_opens_one 3 (by decide)

theorem flushBuffers_eq (l : List (List Nat)) : flushBuffers l = (l, []) := by
  induction l with
  | nil => rfl
  | cons b rest ih => simp [flushBuffers, ih]

theorem clientDispatch_data_buffer (target : String) (st : ClientState)
    (cid d : String) (hc : st.client = none) (hcid : cid ≠ "") (hd : d ≠ "") :
    clientDispatch target st { connection := some cid, data := some d }
      = ({ st with buffers := st.buffers ++ [base64Decode d.toList] }, {}) := by
  simp [clientDispatch, jsTruthyStr, hcid, hd, hc]

theorem foldInbound (target : String) (cid : String) (datas : List String)
    (st : ClientState) (hc : st.client = none) (hcid : cid ≠ "")
    (hd : ∀ d ∈ datas, d ≠ "") :
    datas.foldl
        (fun s d => (clientDispatch target s { connection := some cid, data := some d }).1) st
      = { st with buffers := st.buffers ++ datas.map (fun d => base64Decode d.toList) } := by
  induction datas generalizing st with
  | nil => simp
  | cons d rest ih =>
    rw [List.foldl_cons,
      clientDispatch_data_buffer target st cid d hc hcid (hd d (by simp))]
    dsimp only
    rw [ih { st with buffers := st.buffers ++ [base64Decode d.toList] } hc
      (fun x hx => hd x (by simp [hx]))]
    simp

/-- Claim C7: inbound payloads arriving before any local client attaches are
appended to the pending buffer queue in arrival order; when a local client
attaches, the queue is flushed to it front-first — reproducing the original
order — the socket is not rejected, and the queue is left empty. -/
theorem inbound_buffered_fifo (target : String) (st0 : ClientState)
    (datas : List String) (cid : String) (sock : Nat)
    (h0 : st0.client = none) (h1 : st0.buffers = [])
    (h2 : cid ≠ "") (h3 : ∀ d ∈ datas, d ≠ "") :
    (datas.foldl
        (fun s d => (clientDispatch target s { connection := some cid, data := some d }).1)
        st0).buffers
      = datas.map (fun d => base64Decode d.toList) ∧
    (onLocalConnection
        (datas.foldl
          (fun s d => (clientDispatch target s { connection := some cid, data := some d }).1)
          st0) sock).writes
      = datas.map (fun d => base64Decode d.toList) ∧
    (onLocalConnection
        (datas.foldl
          (fun s d => (clientDispatch target s { connection := some cid, data := some d }).1)
          st0) sock).st.buffers = [] ∧
    (onLocalConnection
        (datas.foldl
          (fun s d => (clientDispatch target s { connection := some cid, data := some d }).1)
          st0) sock).ended = false := by
  rw [foldInbound target cid datas st0 h0 h2 h3]
  rw [h1]
  simp [onLocalConnection, flushBuffers_eq, h0]

/-- Claim C7 witness: two buffered payloads flushed in order to the first
local client. -/
theorem inbound_buffered_fifo_witness :
    ((["QQ==", "TWFu"].foldl
        (fun s d => (clientDispatch "example.com:80" s
          { connection := some "c", data := some d }).1) {}).buffers
      = ["QQ==", "TWFu"].map (fun d => base64Decode d.toList)) ∧
    (onLocalConnection
        (["QQ==", "TWFu"].foldl
          (fun s d => (clientDispatch "example.com:80" s
            { connection := some "c", data := some d }).1) {}) 5).writes
      = ["QQ==", "TWFu"].map (fun d => base64Decode d.toList) ∧
    (onLocalConnection
        (["QQ==", "TWFu"].foldl
          (fun s d => (clientDispatch "example.com:80" s
            { connection := some "c", data := some d }).1) {}) 5).st.buffers = [] ∧
    (onLocalConnection
        (["QQ==", "TWFu"].foldl
          (fun s d => (clientDispatch "example.com:80" s
            { connection := some "c", data := some d }).1) {}) 5).ended = false :=
  inbound_buffered_fifo "example.com:80" {} ["QQ==", "TWFu"] "c" 5
    rfl rfl (by decide) (by decide)

/-- Claim C8 (code evaluation at the failing input): the rejection branch of
the `connection` handler does leave the state untouched, but
`net.createServer`'s callback has already registered the data/close handlers
on the rejected socket; when the rejected socket's `close` event fires, that
handler closes the first client's WebSocket (`wsConnection?.close()`) and
clears the attached-client reference (`client = undefined`) — the first
client's tunnel state is not left undisturbed. -/
theorem second_client_rejection_teardown :
    onLocalConnection
        { client := some 1, buffers := [[7]], wsConnection := some 5,
          isConnected := true, connectionId := some "c" } 2
      = { st := { client := some 1, buffers := [[7]], wsConnection := some 5,
                  isConnected := true, connectionId := some "c" },
          ended := true } ∧
    (onLocalSocketClose
        { client := some 1, buffers := [[7]], wsConnection := some 5,
          isConnected := true, connectionId := some "c" }).1.client = none ∧
    (onLocalSocketClose
        { client := some 1, buffers := [[7]], wsConnection := some 5,
          isConnected := true, connectionId := some "c" }).2 = true := by
  decide

/-- Claim C9 (counterexample): a text frame whose content is not valid JSON
is not silently ignored — `JSON.parse` throws inside the message handler, on
the server and on the client alike. -/
theorem invalid_json_frame_throws :
    (serverOnMessage none { sess := some [] } (Frame.text none)
        "n1" (Except.ok ()) none).threw = true ∧
    (clientOnMessage "example.com:80" {} (Frame.text none)).2.threw = true := by
  decide

/-- Claim C9 (amended): binary frames are silently ignored by both ends —
no state change, no effect, no error — while a UTF-8 text frame whose
content is not valid JSON makes the message handler throw (the `JSON.parse`
exception), also on both ends, without altering session state. -/
theorem malformed_frames_amended (credentials : Option CredTable)
    (st : ServerState) (cst : ClientState) (target newId : String)
    (dial : Except String Unit) (writeErr : Option String) (bytes : List Nat) :
    serverOnMessage credentials st (Frame.binary bytes) newId dial writeErr
      = { st := st } ∧
    serverOnMessage credentials st (Frame.text none) newId dial writeErr
      = { st := st, threw := true } ∧
    clientOnMessage target cst (Frame.binary bytes) = (cst, {}) ∧
    clientOnMessage target cst (Frame.text none) = (cst, { threw := true }) :=
  ⟨rfl, rfl, rfl, rfl⟩
